import Mathlib

/-!
Verification of the hierarchical data-source resolution and dispatch mechanism
of `actions_framework/actions_framework_utils/enframe_action.py` (class
`Action`).  The Python registry for one execution context (one "partition",
the value of `action._data_source_mappings['local']` or `['enframe']`) is the
nested dictionary

  { 'source'  : (data_source, data_source_type),            -- optional
    'schemas' : { schema_name :                             -- optional
        { 'source' : (data_source, data_source_type),       -- optional
          'tables' : { table_name :                         -- optional
              { 'source' : (data_source, data_source_type) } } } } }

where `data_source` is a `str` (file/dir path), a `pathlib.Path`, or a dict
with string values for the keys `db_url`, `db_schema`, `db_table`, and
`data_source_type` is the string tag `'file_or_dir'` or `'db'`.

Modelling conventions, each traceable to the Python source:
* Python `str`/`Path`/`dict` sources become the three `RawSource`
  constructors; dict sources are modelled by their three recognised keys
  (`db_url`, `db_schema`, `db_table`), each `Option String` (`none` = key
  absent, `some ""` = key present with a falsy value).  Dict values are
  strings, as the code's own docstrings require.
* Python exceptions become `Except Err` values: `ValueError` raised by the
  path splitter is `Err.invalidPath`; `ValueError` raised by the location
  validators is `Err.invalidLocation`; a `KeyError` on a partition's missing
  `'source'` key is `Err.noDefaultSource` (the spec's name for exactly that
  failure), any other `KeyError k` is `Err.keyError k`; `TypeError` from
  membership tests or item assignment on non-dict values is `Err.typeError`;
  `NotImplementedError` is `Err.notImplemented`.
* `_get_data_source` mutates the stored dicts in place (no copy is ever
  taken); the model threads this state explicitly: `get_data_source` returns
  the resolved `(data_source, data_source_type)` pair together with the
  partition as it stands after the call.  Registry slots are assumed to hold
  distinct dict objects (which is how the setters build them); the one
  intra-call alias — in the table branch the first ancestor
  `schemas[s]['source']` can be the very object being resolved — is
  extensionally invisible here because the backfill only consults the
  `db_url`/`db_schema` fields that the preceding `db_table` write never
  touches.  When the Python code raises after having already mutated a dict
  in place, the model returns the error and drops the partial mutation (no
  claim depends on the post-state of a failed call).
-/

/-- Error kinds, one per distinct Python exception site (see the module
docstring for the correspondence). -/
inductive Err where
  | invalidPath
  | noDefaultSource
  | invalidLocation
  | missingParameter (p : String)
  | notImplemented
  | keyError (k : String)
  | typeError
  | unknownSchema
deriving DecidableEq, Repr

/-- Decidable equality for `Except`, so that concrete runs of the model can be
checked by `decide`. -/
instance {ε α : Type} [DecidableEq ε] [DecidableEq α] : DecidableEq (Except ε α) :=
  fun x y =>
    match x, y with
    | .ok a, .ok b =>
        if h : a = b then .isTrue (by rw [h])
        else .isFalse (by intro hh; cases hh; exact h rfl)
    | .ok _, .error _ => .isFalse (by intro h; cases h)
    | .error _, .ok _ => .isFalse (by intro h; cases h)
    | .error a, .error b =>
        if h : a = b then .isTrue (by rw [h])
        else .isFalse (by intro hh; cases hh; exact h rfl)

/-- A database data-source dict, restricted to the three keys the code ever
reads or writes.  `none` models an absent key; `some ""` a key present with an
empty (falsy) string. -/
structure DbDict where
  db_url : Option String := none
  db_schema : Option String := none
  db_table : Option String := none
deriving DecidableEq, Repr

/-- A raw `data_source` value as stored in the registry: a `str`, a
`pathlib.Path`, or a database dict. -/
inductive RawSource where
  | strSrc (s : String)
  | pathSrc (p : String)
  | dictSrc (d : DbDict)
deriving DecidableEq, Repr

/-- One entry of the `'schemas'` mapping: the optional `'source'` key and the
optional `'tables'` mapping, whose entries are dicts modelled by their
optional `'source'` key. -/
structure SchemaEntry where
  source : Option (RawSource × String) := none
  tables : Option (List (String × Option (RawSource × String))) := none
deriving DecidableEq, Repr

/-- One registry partition (the Python dict
`action._data_source_mappings[context]`): optional default `'source'` and
optional `'schemas'` mapping, both mappings modelled as association lists. -/
structure DataSourceMappings where
  source : Option (RawSource × String) := none
  schemas : Option (List (String × SchemaEntry)) := none
deriving DecidableEq, Repr

/-- Insert-or-replace in an association list, keeping the position of an
existing key (Python dict item assignment). -/
def alUpdate {α : Type} (k : String) (v : α) : List (String × α) → List (String × α)
  | [] => [(k, v)]
  | (k', v') :: rest =>
      if k' = k then (k, v) :: rest else (k', v') :: alUpdate k v rest

/-- Dict read of one of the three recognised keys of a database dict. -/
def dget (d : DbDict) (p : String) : Option String :=
  if p = "db_url" then d.db_url
  else if p = "db_schema" then d.db_schema
  else if p = "db_table" then d.db_table
  else none

/-- Dict write of one of the three recognised keys of a database dict. -/
def dset (d : DbDict) (p v : String) : DbDict :=
  if p = "db_url" then { d with db_url := some v }
  else if p = "db_schema" then { d with db_schema := some v }
  else if p = "db_table" then { d with db_table := some v }
  else d

/-- Accumulator loop for `splitOnChar`. -/
def splitOnCharAux (sep : Char) : List Char → List Char → List (List Char)
  | [], acc => [acc.reverse]
  | c :: rest, acc =>
      if c = sep then acc.reverse :: splitOnCharAux sep rest []
      else splitOnCharAux sep rest (c :: acc)

/-- Python `s.split(sep)` for a one-character separator (so
`splitOnChar c "" = [""]`, like Python's `''.split(c)`). -/
def splitOnChar (sep : Char) (s : String) : List String :=
  (splitOnCharAux sep s.data []).map String.mk

/-- Character-list test: does `p` occur at the head of `s`. -/
def charsPre : List Char → List Char → Bool
  | [], _ => true
  | _ :: _, [] => false
  | a :: as, b :: bs => a = b && charsPre as bs

/-- Character-list test: does `p` occur contiguously inside `s`. -/
def charsSub (p : List Char) : List Char → Bool
  | [] => charsPre p []
  | b :: bs => charsPre p (b :: bs) || charsSub p bs

/-- Python substring test `p in s` for strings. -/
def strContains (s p : String) : Bool := charsSub p.data s.data

/-- Python truthiness of an optional string value (`None`/absent and `''` are
falsy). -/
def truthy : Option String → Bool
  | none => false
  | some s => s ≠ ""

/-- Python `param in data_source`: key membership for dicts, substring test
for strings, `TypeError` for `Path` objects (`in` is not supported on them). -/
def paramIn : RawSource → String → Except Err Bool
  | .dictSrc d, p => .ok (dget d p).isSome
  | .strSrc s, p => .ok (strContains s p)
  | .pathSrc _, _ => .error .typeError

/-- Python `data_source[param]` on a value known to contain `param`: dict
indexing yields the stored string; indexing a `str` with a `str` key raises
`TypeError`. -/
def getParamVal : RawSource → String → Except Err String
  | .dictSrc d, p => .ok ((dget d p).getD "")
  | _, _ => .error .typeError

/-- Python `data_source[param] = v`: item assignment, a `TypeError` on
anything but a dict. -/
def setParamOn : RawSource → String → String → Except Err RawSource
  | .dictSrc d, p, v => .ok (.dictSrc (dset d p v))
  | _, _, _ => .error .typeError

/-- The ancestor scan of `set_default_param` (enframe_action.py lines
472-477): walk the `(default_data_source, _)` list in order and copy the
first present value of `param` into `data_source`. -/
def set_default_param_scan (loc : RawSource) (p : String) :
    List (RawSource × String) → Except Err RawSource
  | [] => .ok loc
  | (a, _) :: rest =>
      match paramIn a p with
      | .error e => .error e
      | .ok true =>
          match getParamVal a p with
          | .error e => .error e
          | .ok v => setParamOn loc p v
      | .ok false => set_default_param_scan loc p rest

/-- `set_default_param` (enframe_action.py lines 470-477): nothing to do when
`param` is already present on `data_source`, otherwise scan the defaults. -/
def set_default_param (loc : RawSource) (p : String)
    (ancs : List (RawSource × String)) : Except Err RawSource :=
  match paramIn loc p with
  | .error e => .error e
  | .ok true => .ok loc
  | .ok false => set_default_param_scan loc p ancs

/-- `set_hierarchical_params` (enframe_action.py lines 467-482): for a
`'db'`-tagged source, backfill `db_url` then `db_schema` from the ancestor
list; any other tag is left untouched. -/
def set_hierarchical_params (st : RawSource × String)
    (ancs : List (RawSource × String)) : Except Err (RawSource × String) :=
  if st.2 = "db" then
    match set_default_param st.1 "db_url" ancs with
    | .error e => .error e
    | .ok v1 =>
        match set_default_param v1 "db_schema" ancs with
        | .error e => .error e
        | .ok v2 => .ok (v2, st.2)
  else .ok st

/-- `Action._get_schema_and_table_name` (enframe_action.py lines 430-452):
split on `'.'`; accept one segment (schema only) or two segments with a
non-empty table segment. -/
def get_schema_and_table_name (name : String) :
    Except Err (String × Option String) :=
  let parts := splitOnChar '.' name
  if parts.length = 1 then .ok (parts.headD "", none)
  else if parts.length = 2 then
    if parts.getD 1 "" = "" then .error .invalidPath
    else .ok (parts.headD "", some (parts.getD 1 ""))
  else .error .invalidPath

/-- The `db_table` defaulting step of `_get_data_source` (lines 516-520): for
a `'db'`-tagged source resolved at table granularity, set `db_table` to the
requested table's name when absent (an in-place write on the stored value). -/
def db_table_default (st : RawSource × String) (t : String) :
    Except Err (RawSource × String) :=
  if st.2 = "db" then
    match paramIn st.1 "db_table" with
    | .error e => .error e
    | .ok true => .ok st
    | .ok false =>
        match setParamOn st.1 "db_table" t with
        | .error e => .error e
        | .ok v => .ok (v, st.2)
  else .ok st

/-- Schema-granularity arm of `_get_data_source` (lines 490-499): pick the
schema's `'source'` (partition default when the schema is unregistered), then
backfill from the eagerly built ancestor list `[mappings['source']]`.  The
in-place mutation of the picked dict is returned as the updated partition. -/
def get_data_source_schema (m : DataSourceMappings)
    (sm : List (String × SchemaEntry)) (s : String) :
    Except Err ((RawSource × String) × DataSourceMappings) :=
  match List.lookup s sm with
  | none =>
      match m.source with
      | none => .error .noDefaultSource
      | some st =>
          match set_hierarchical_params st [st] with
          | .error e => .error e
          | .ok st3 => .ok (st3, { m with source := some st3 })
  | some e =>
      match e.source with
      | none => .error (.keyError "source")
      | some st =>
          match m.source with
          | none => .error .noDefaultSource
          | some r0 =>
              match set_hierarchical_params st [r0] with
              | .error er => .error er
              | .ok st3 =>
                  .ok (st3, { m with
                    schemas := some (alUpdate s { e with source := some st3 } sm) })

/-- Table-granularity arm of `_get_data_source` (lines 500-526): pick the
table's `'source'` (falling back to the schema's, then the partition's), run
the `db_table` defaulting, then build the ancestor list
`[schemas[schema]['source'], mappings['source']]` eagerly — so a `KeyError`
escapes here whenever the schema is unregistered, the schema entry lacks a
`'source'`, or the partition lacks a default — and backfill.  The in-place
mutations land in the slot the picked dict came from. -/
def get_data_source_table (m : DataSourceMappings)
    (sm : List (String × SchemaEntry)) (s t : String) :
    Except Err ((RawSource × String) × DataSourceMappings) :=
  match List.lookup s sm with
  | none =>
      match m.source with
      | none => .error .noDefaultSource
      | some st =>
          match db_table_default st t with
          | .error e => .error e
          | .ok _ => .error (.keyError s)
  | some e =>
      match e.tables with
      | none => .error (.keyError "tables")
      | some tb =>
          match List.lookup t tb with
          | none =>
              match e.source with
              | none => .error (.keyError "source")
              | some st =>
                  match db_table_default st t with
                  | .error er => .error er
                  | .ok st2 =>
                      match m.source with
                      | none => .error .noDefaultSource
                      | some r0 =>
                          match set_hierarchical_params st2 [st2, r0] with
                          | .error er => .error er
                          | .ok st3 =>
                              .ok (st3, { m with
                                schemas := some
                                  (alUpdate s { e with source := some st3 } sm) })
          | some te =>
              match te with
              | none => .error (.keyError "source")
              | some st =>
                  match db_table_default st t with
                  | .error er => .error er
                  | .ok st2 =>
                      match e.source with
                      | none => .error (.keyError "source")
                      | some a1 =>
                          match m.source with
                          | none => .error .noDefaultSource
                          | some r0 =>
                              match set_hierarchical_params st2 [a1, r0] with
                              | .error er => .error er
                              | .ok st3 =>
                                  .ok (st3, { m with
                                    schemas := some
                                      (alUpdate s
                                        { e with
                                          tables := some (alUpdate t (some st3) tb) }
                                        sm) })

/-- `Action._get_data_source` (enframe_action.py lines 457-527), with
`include_data_source_type=True`: resolve a path against one partition,
returning the `(data_source, data_source_type)` pair and the partition after
the call (the code mutates stored dicts in place).  The variant with
`include_data_source_type=False` returns just the first component. -/
def get_data_source (m : DataSourceMappings) (name : String) :
    Except Err ((RawSource × String) × DataSourceMappings) :=
  match m.schemas with
  | none =>
      match m.source with
      | some st => .ok (st, m)
      | none => .error .noDefaultSource
  | some sm =>
      if name = "" then
        match m.source with
        | some st => .ok (st, m)
        | none => .error .noDefaultSource
      else
        match get_schema_and_table_name name with
        | .error e => .error e
        | .ok (s, none) => get_data_source_schema m sm s
        | .ok (s, some t) => get_data_source_table m sm s t

/-- Whether a character may appear in a URL scheme (`urllib.parse`'s
`scheme_chars`: letters, digits, `+`, `-`, `.`). -/
def isSchemeChar (c : Char) : Bool :=
  c.isAlphanum || c = '+' || c = '-' || c = '.'

/-- `urllib.parse.urlparse(s).scheme`: the lower-cased text before the first
`':'` when it is non-empty, starts with a letter and consists of scheme
characters; otherwise the empty string. -/
def urlparseScheme (s : String) : String :=
  if strContains s ":" then
    let pre := (splitOnChar ':' s).headD ""
    if pre ≠ "" && pre.data.all isSchemeChar && (pre.data.headD 'a').isAlpha
    then String.mk (pre.data.map Char.toLower) else ""
  else ""

/-- `Action._get_data_source_type` (enframe_action.py lines 529-576): infer
`'file_or_dir'` for strings without a URL scheme and for `Path` objects;
infer `'db'` for non-empty dicts after validating that a truthy `db_url`
comes with a truthy `db_schema` and that a present `db_url` parses to a
PostgreSQL scheme; everything else (including an empty dict) is rejected. -/
def get_data_source_type : RawSource → Except Err String
  | .strSrc s =>
      if urlparseScheme s ≠ "" then .error .invalidLocation else .ok "file_or_dir"
  | .pathSrc _ => .ok "file_or_dir"
  | .dictSrc d =>
      if !(d.db_url.isSome || d.db_schema.isSome || d.db_table.isSome) then
        .error .invalidLocation
      else if truthy d.db_url && !truthy d.db_schema then
        .error .invalidLocation
      else if d.db_url.isSome
          && !(urlparseScheme (d.db_url.getD "") = "postgresql"
               || urlparseScheme (d.db_url.getD "") = "postgres") then
        .error .invalidLocation
      else .ok "db"

/-- `Action._check_db_data_source` (enframe_action.py lines 578-612): for the
root path require a truthy `db_schema` and forbid a truthy `db_table`; then
split the path (the root path splits to a schema-only shape and repeats those
checks); at schema granularity require `db_schema` and forbid `db_table`; at
table granularity require a truthy `db_table`. -/
def check_db_data_source (name : String) (d : DbDict) : Except Err Unit :=
  match
    (if name = "" then
      if !truthy d.db_schema then .error .invalidLocation
      else if truthy d.db_table then .error .invalidLocation
      else .ok ()
    else (.ok () : Except Err Unit)) with
  | .error e => .error e
  | .ok _ =>
      match get_schema_and_table_name name with
      | .error e => .error e
      | .ok (_, none) =>
          if !truthy d.db_schema then .error .invalidLocation
          else if truthy d.db_table then .error .invalidLocation
          else .ok ()
      | .ok (_, some _) =>
          if !truthy d.db_table then .error .invalidLocation
          else .ok ()

/-- `Action._set_data_source` (enframe_action.py lines 615-645) as invoked by
the public setters (which never pass an explicit `data_source_type`): infer
the type, validate database dicts against the path granularity, then store
the `(data_source, data_source_type)` tuple at the path's slot, creating the
intermediate `'schemas'`/`'tables'` dicts with `setdefault`. -/
def set_data_source (m : DataSourceMappings) (name : String) (ds : RawSource) :
    Except Err DataSourceMappings :=
  match get_data_source_type ds with
  | .error e => .error e
  | .ok ty =>
      match
        (if ty = "db" then
          match ds with
          | .dictSrc d => check_db_data_source name d
          | _ => .ok ()
        else (.ok () : Except Err Unit)) with
      | .error e => .error e
      | .ok _ =>
          if name = "" then .ok { m with source := some (ds, ty) }
          else
            match get_schema_and_table_name name with
            | .error e => .error e
            | .ok (s, none) =>
                let sm := m.schemas.getD []
                let e := (List.lookup s sm).getD {}
                .ok { m with
                  schemas := some (alUpdate s { e with source := some (ds, ty) } sm) }
            | .ok (s, some t) =>
                let sm := m.schemas.getD []
                let e := (List.lookup s sm).getD {}
                let tb := e.tables.getD []
                .ok { m with
                  schemas := some
                    (alUpdate s { e with tables := some (alUpdate t (some (ds, ty)) tb) } sm) }

/-- A call to one of the external I/O collaborators: the constructor records
which collaborator would be invoked with which resolved arguments.  An
`Except.error` result of the dispatchers means no collaborator is invoked. -/
inductive DispatchCall where
  | fileAccess (v : RawSource)
  | dbRead (url sch : String)
  | dbWrite (url sch : String)
deriving DecidableEq, Repr

/-- `Action.read_data` (enframe_action.py lines 766-844) specialised to a
single argument and one partition: split the name (rejecting table
granularity with `NotImplementedError` before anything else is consulted),
check that the action has a schema attribute of that name (`hasAttr` stands
for `getattr(self, schema_name, None)`), resolve through `_get_data_source`,
and dispatch: a `'file_or_dir'` source goes to the file-system collaborator;
a `'db'` source must carry the `db_url` and `db_schema` keys — the first one
missing (checked in that order, by key presence) raises `ValueError`, modelled
as `Err.missingParameter` — before the database collaborator is invoked. -/
def read_data (hasAttr : String → Bool) (m : DataSourceMappings)
    (name : String) : Except Err (DispatchCall × DataSourceMappings) :=
  match get_schema_and_table_name name with
  | .error e => .error e
  | .ok (_, some _) => .error .notImplemented
  | .ok (s, none) =>
      if !hasAttr s then .error .unknownSchema
      else
        match get_data_source m name with
        | .error e => .error e
        | .ok (st, m') =>
            if st.2 = "file_or_dir" then .ok (.fileAccess st.1, m')
            else if st.2 = "db" then
              match st.1 with
              | .dictSrc d =>
                  if d.db_url = none then .error (.missingParameter "db_url")
                  else if d.db_schema = none then .error (.missingParameter "db_schema")
                  else .ok (.dbRead (d.db_url.getD "") (d.db_schema.getD ""), m')
              | .strSrc sv =>
                  if !strContains sv "db_url" then .error (.missingParameter "db_url")
                  else if !strContains sv "db_schema" then
                    .error (.missingParameter "db_schema")
                  else .error .typeError
              | .pathSrc _ => .error .typeError
            else .error (.keyError name)

/-- `Action.write_data` (enframe_action.py lines 958-1028) specialised to a
single dataset and one partition, with the dataset abstracted to the schema
name it resolves to (`_get_tic_or_pan_dat_schema_name`): resolve that name
through `_get_data_source` and dispatch, with the same `db_url`-then-
`db_schema` presence check as `read_data` guarding the database collaborator. -/
def write_data (m : DataSourceMappings) (schemaName : String) :
    Except Err (DispatchCall × DataSourceMappings) :=
  match get_data_source m schemaName with
  | .error e => .error e
  | .ok (st, m') =>
      if st.2 = "file_or_dir" then .ok (.fileAccess st.1, m')
      else if st.2 = "db" then
        match st.1 with
        | .dictSrc d =>
            if d.db_url = none then .error (.missingParameter "db_url")
            else if d.db_schema = none then .error (.missingParameter "db_schema")
            else .ok (.dbWrite (d.db_url.getD "") (d.db_schema.getD ""), m')
        | .strSrc sv =>
            if !strContains sv "db_url" then .error (.missingParameter "db_url")
            else if !strContains sv "db_schema" then
              .error (.missingParameter "db_schema")
            else .error .typeError
        | .pathSrc _ => .error .typeError
      else .error (.keyError schemaName)

/-- The partition after seeding the root database default (first setter call
of the C3 scenario). -/
def c3_state_a : DataSourceMappings :=
  { source := some
      (.dictSrc { db_url := some "postgres://x", db_schema := some "B" }, "db"),
    schemas := none }

/-- The partition after additionally registering the schema-level source
`{'db_schema': 'C'}` for `"s"`. -/
def c3_state_b : DataSourceMappings :=
  { source := some
      (.dictSrc { db_url := some "postgres://x", db_schema := some "B" }, "db"),
    schemas := some
      [("s", { source := some (.dictSrc { db_schema := some "C" }, "db") })] }

/-- The partition after additionally registering the table-level source
`{'db_table': 'x'}` for `"s.t"`. -/
def c3_state_c : DataSourceMappings :=
  { source := some
      (.dictSrc { db_url := some "postgres://x", db_schema := some "B" }, "db"),
    schemas := some
      [("s", { source := some (.dictSrc { db_schema := some "C" }, "db"),
               tables := some
                 [("t", some (.dictSrc { db_table := some "x" }, "db"))] })] }

/-- The partition `c3_state_c` after a resolve of `"s.t"`: the stored table
dict has acquired `db_url` and `db_schema` in place. -/
def c3_state_after : DataSourceMappings :=
  { source := some
      (.dictSrc { db_url := some "postgres://x", db_schema := some "B" }, "db"),
    schemas := some
      [("s", { source := some (.dictSrc { db_schema := some "C" }, "db"),
               tables := some
                 [("t",
                   some (.dictSrc
                     { db_url := some "postgres://x", db_schema := some "C",
                       db_table := some "x" }, "db"))] })] }


/-! ### Basic facts about the dict and association-list operations -/

lemma dget_url (d : DbDict) : dget d "db_url" = d.db_url := by
  simp [dget]

lemma dget_schema (d : DbDict) : dget d "db_schema" = d.db_schema := by
  simp [dget]

lemma dget_table (d : DbDict) : dget d "db_table" = d.db_table := by
  simp [dget]

lemma dget_dset_ne {p q : String} (h : p ≠ q) (d : DbDict) (v : String) :
    dget (dset d q v) p = dget d p := by
  unfold dget dset
  split_ifs <;> simp_all

lemma dget_dset_same {p : String}
    (hp : p = "db_url" ∨ p = "db_schema" ∨ p = "db_table")
    (d : DbDict) (v : String) : dget (dset d p v) p = some v := by
  rcases hp with h | h | h <;> subst h <;> simp [dget, dset]

lemma lookup_alUpdate_self {α : Type} (k : String) (v : α)
    (l : List (String × α)) : List.lookup k (alUpdate k v l) = some v := by
  induction l with
  | nil => simp [alUpdate, List.lookup]
  | cons hd t ih =>
      obtain ⟨k', v'⟩ := hd
      by_cases hk : k' = k
      · subst hk; simp [alUpdate, List.lookup]
      · have hb : (k == k') = false := by simp [Ne.symm hk]
        simp only [alUpdate, if_neg hk, List.lookup, hb]
        exact ih

lemma alUpdate_lookup_eq {α : Type} {k : String} {v : α}
    {l : List (String × α)} (h : List.lookup k l = some v) :
    alUpdate k v l = l := by
  induction l with
  | nil => simp [List.lookup] at h
  | cons hd t ih =>
      obtain ⟨k', v'⟩ := hd
      by_cases hk : k = k'
      · subst hk
        simp [List.lookup] at h
        simp [alUpdate, h]
      · have hb : (k == k') = false := by simp [hk]
        simp only [List.lookup, hb] at h
        have hne : ¬(k' = k) := fun hh => hk hh.symm
        simp only [alUpdate, if_neg hne, ih h]

lemma alUpdate_idem {α : Type} (k : String) (v : α) (l : List (String × α)) :
    alUpdate k v (alUpdate k v l) = alUpdate k v l :=
  alUpdate_lookup_eq (lookup_alUpdate_self k v l)

/-! ### Behaviour of the parameter backfill -/

lemma set_default_param_scan_all_absent {l : RawSource} {p : String}
    {A : List (RawSource × String)}
    (h : ∀ a ∈ A, paramIn a.1 p = .ok false) :
    set_default_param_scan l p A = .ok l := by
  induction A with
  | nil => rfl
  | cons a rest ih =>
      obtain ⟨a1, a2⟩ := a
      have h1 := h (a1, a2) (by simp)
      simp only [set_default_param_scan, h1]
      exact ih (fun x hx => h x (by simp [hx]))

lemma set_default_param_scan_ok_cases {p : String}
    (hp : p = "db_url" ∨ p = "db_schema" ∨ p = "db_table") :
    ∀ {A : List (RawSource × String)} {l l' : RawSource},
      set_default_param_scan l p A = .ok l' →
      paramIn l' p = .ok true ∨
        (l' = l ∧ ∀ a ∈ A, paramIn a.1 p = .ok false) := by
  intro A
  induction A with
  | nil =>
      intro l l' h
      simp only [set_default_param_scan] at h
      right
      exact ⟨(Except.ok.inj h).symm, by simp⟩
  | cons a rest ih =>
      intro l l' h
      obtain ⟨a1, a2⟩ := a
      simp only [set_default_param_scan] at h
      cases ha : paramIn a1 p with
      | error e => rw [ha] at h; cases h
      | ok b =>
          rw [ha] at h
          cases b with
          | false =>
              rcases ih h with h1 | ⟨h1, h2⟩
              · exact Or.inl h1
              · refine Or.inr ⟨h1, ?_⟩
                intro x hx
                rcases List.mem_cons.mp hx with hx | hx
                · subst hx; exact ha
                · exact h2 x hx
          | true =>
              cases hv : getParamVal a1 p with
              | error e => rw [hv] at h; cases h
              | ok v =>
                  rw [hv] at h
                  cases l with
                  | strSrc s => cases h
                  | pathSrc q => cases h
                  | dictSrc d =>
                      left
                      have hl' : l' = .dictSrc (dset d p v) :=
                        (Except.ok.inj h).symm
                      subst hl'
                      simp [paramIn, dget_dset_same hp]

lemma set_default_param_ok_cases {l : RawSource} {p : String}
    {A : List (RawSource × String)} {l' : RawSource}
    (hp : p = "db_url" ∨ p = "db_schema" ∨ p = "db_table")
    (h : set_default_param l p A = .ok l') :
    paramIn l' p = .ok true ∨
      (l' = l ∧ paramIn l p = .ok false ∧
        ∀ a ∈ A, paramIn a.1 p = .ok false) := by
  unfold set_default_param at h
  cases hl : paramIn l p with
  | error e => rw [hl] at h; cases h
  | ok b =>
      rw [hl] at h
      cases b with
      | true =>
          left
          rw [(Except.ok.inj h).symm]
          exact hl
      | false =>
          rcases set_default_param_scan_ok_cases hp h with h1 | ⟨h1, h2⟩
          · exact Or.inl h1
          · exact Or.inr ⟨h1, rfl, h2⟩

lemma set_default_param_paramIn_ok {l : RawSource} {p : String}
    {A : List (RawSource × String)} {l' : RawSource}
    (hp : p = "db_url" ∨ p = "db_schema" ∨ p = "db_table")
    (h : set_default_param l p A = .ok l') :
    ∃ b, paramIn l' p = .ok b := by
  rcases set_default_param_ok_cases hp h with h1 | ⟨rfl, h2, _⟩
  · exact ⟨true, h1⟩
  · exact ⟨false, h2⟩

lemma set_default_param_scan_preserves {p q : String} (hpq : p ≠ q) :
    ∀ {A : List (RawSource × String)} {l l' : RawSource},
      set_default_param_scan l q A = .ok l' →
      paramIn l' p = paramIn l p := by
  intro A
  induction A with
  | nil =>
      intro l l' h
      simp only [set_default_param_scan] at h
      rw [(Except.ok.inj h).symm]
  | cons a rest ih =>
      intro l l' h
      obtain ⟨a1, a2⟩ := a
      simp only [set_default_param_scan] at h
      cases ha : paramIn a1 q with
      | error e => rw [ha] at h; cases h
      | ok b =>
          rw [ha] at h
          cases b with
          | false => exact ih h
          | true =>
              cases hv : getParamVal a1 q with
              | error e => rw [hv] at h; cases h
              | ok v =>
                  rw [hv] at h
                  cases l with
                  | strSrc s => cases h
                  | pathSrc r => cases h
                  | dictSrc d =>
                      rw [(Except.ok.inj h).symm]
                      simp [paramIn, dget_dset_ne hpq]

lemma set_default_param_preserves {l : RawSource} {p q : String}
    {A : List (RawSource × String)} {l' : RawSource} (hpq : p ≠ q)
    (h : set_default_param l q A = .ok l') :
    paramIn l' p = paramIn l p := by
  unfold set_default_param at h
  cases hl : paramIn l q with
  | error e => rw [hl] at h; cases h
  | ok b =>
      rw [hl] at h
      cases b with
      | true => rw [(Except.ok.inj h).symm]
      | false => exact set_default_param_scan_preserves hpq h

lemma shp_not_db {st : RawSource × String} {A : List (RawSource × String)}
    (h : st.2 ≠ "db") : set_hierarchical_params st A = .ok st := by
  unfold set_hierarchical_params
  rw [if_neg h]

lemma shp_eq_of_not_db {st out : RawSource × String}
    {A : List (RawSource × String)} (hdb : st.2 ≠ "db")
    (h : set_hierarchical_params st A = .ok out) : out = st := by
  rw [shp_not_db hdb] at h
  exact (Except.ok.inj h).symm

lemma shp_db_steps {st out : RawSource × String}
    {A : List (RawSource × String)} (hdb : st.2 = "db")
    (h : set_hierarchical_params st A = .ok out) :
    ∃ v1, set_default_param st.1 "db_url" A = .ok v1 ∧
      ∃ v2, set_default_param v1 "db_schema" A = .ok v2 ∧ out = (v2, st.2) := by
  unfold set_hierarchical_params at h
  rw [if_pos hdb] at h
  cases h1 : set_default_param st.1 "db_url" A with
  | error e => rw [h1] at h; cases h
  | ok v1 =>
      rw [h1] at h
      dsimp only at h
      cases h2 : set_default_param v1 "db_schema" A with
      | error e => rw [h2] at h; cases h
      | ok v2 =>
          rw [h2] at h
          dsimp only at h
          exact ⟨v1, rfl, v2, h2, (Except.ok.inj h).symm⟩

lemma shp_tag_and_table {st out : RawSource × String}
    {A : List (RawSource × String)}
    (h : set_hierarchical_params st A = .ok out) :
    out.2 = st.2 ∧ paramIn out.1 "db_table" = paramIn st.1 "db_table" := by
  by_cases hdb : st.2 = "db"
  · obtain ⟨v1, h1, v2, h2, rfl⟩ := shp_db_steps hdb h
    refine ⟨rfl, ?_⟩
    calc paramIn v2 "db_table"
        = paramIn v1 "db_table" :=
          set_default_param_preserves (by decide) h2
      _ = paramIn st.1 "db_table" :=
          set_default_param_preserves (by decide) h1
  · rw [shp_eq_of_not_db hdb h]
    exact ⟨rfl, rfl⟩

lemma shp_stable {st st3 : RawSource × String}
    {A A' : List (RawSource × String)}
    (h : set_hierarchical_params st A = .ok st3)
    (hu : paramIn st3.1 "db_url" = .ok true ∨
      ∀ a ∈ A', paramIn a.1 "db_url" = .ok false)
    (hs : paramIn st3.1 "db_schema" = .ok true ∨
      ∀ a ∈ A', paramIn a.1 "db_schema" = .ok false) :
    set_hierarchical_params st3 A' = .ok st3 := by
  by_cases hdb : st.2 = "db"
  · obtain ⟨v1, h1, v2, h2, rfl⟩ := shp_db_steps hdb h
    have s1 : set_default_param v2 "db_url" A' = .ok v2 := by
      obtain ⟨b, hb⟩ := set_default_param_paramIn_ok (Or.inl rfl) h1
      have hb2 : paramIn v2 "db_url" = .ok b := by
        rw [set_default_param_preserves (by decide) h2]
        exact hb
      unfold set_default_param
      rw [hb2]
      cases b with
      | true => rfl
      | false =>
          rcases hu with h' | h'
          · rw [hb2] at h'; cases h'
          · exact set_default_param_scan_all_absent h'
    have s2 : set_default_param v2 "db_schema" A' = .ok v2 := by
      obtain ⟨b, hb⟩ := set_default_param_paramIn_ok (Or.inr (Or.inl rfl)) h2
      unfold set_default_param
      rw [hb]
      cases b with
      | true => rfl
      | false =>
          rcases hs with h' | h'
          · rw [hb] at h'; cases h'
          · exact set_default_param_scan_all_absent h'
    unfold set_hierarchical_params
    rw [if_pos (show ((v2, st.2) : RawSource × String).2 = "db" from hdb)]
    rw [s1]
    dsimp only
    rw [s2]
  · have hst : st3 = st := shp_eq_of_not_db hdb h
    subst hst
    exact shp_not_db hdb

lemma shp_stable_same {st st3 : RawSource × String}
    {A : List (RawSource × String)}
    (h : set_hierarchical_params st A = .ok st3) :
    set_hierarchical_params st3 A = .ok st3 := by
  by_cases hdb : st.2 = "db"
  · obtain ⟨v1, h1, v2, h2, hout⟩ := shp_db_steps hdb h
    refine shp_stable h ?_ ?_
    · rcases set_default_param_ok_cases (Or.inl rfl) h1 with h' | ⟨rfl, h', hall⟩
      · left
        rw [hout]
        show paramIn v2 "db_url" = .ok true
        rw [set_default_param_preserves (by decide) h2]
        exact h'
      · exact Or.inr hall
    · rcases set_default_param_ok_cases (Or.inr (Or.inl rfl)) h2
        with h' | ⟨rfl, h', hall⟩
      · left
        rw [hout]
        exact h'
      · exact Or.inr hall
  · have hst : st3 = st := shp_eq_of_not_db hdb h
    subst hst
    exact shp_not_db hdb

lemma shp_stable_self_head {st2 r0 st3 : RawSource × String}
    (h : set_hierarchical_params st2 [st2, r0] = .ok st3) :
    set_hierarchical_params st3 [st3, r0] = .ok st3 := by
  by_cases hdb : st2.2 = "db"
  · obtain ⟨v1, h1, v2, h2, hout⟩ := shp_db_steps hdb h
    refine shp_stable h ?_ ?_
    · rcases set_default_param_ok_cases (Or.inl rfl) h1 with h' | ⟨hv1, h', hall⟩
      · left
        rw [hout]
        show paramIn v2 "db_url" = .ok true
        rw [set_default_param_preserves (by decide) h2]
        exact h'
      · right
        intro a ha
        rcases List.mem_cons.mp ha with ha | ha
        · subst ha
          rw [hout]
          show paramIn v2 "db_url" = .ok false
          rw [set_default_param_preserves (by decide) h2, hv1]
          exact h'
        · exact hall a (by simp at ha; simp [ha])
    · rcases set_default_param_ok_cases (Or.inr (Or.inl rfl)) h2
        with h' | ⟨hv2, h', hall⟩
      · left
        rw [hout]
        exact h'
      · right
        intro a ha
        rcases List.mem_cons.mp ha with ha | ha
        · subst ha
          rw [hout]
          show paramIn v2 "db_schema" = .ok false
          rw [hv2]
          exact h'
        · exact hall a (by simp at ha; simp [ha])
  · have hst : st3 = st2 := shp_eq_of_not_db hdb h
    subst hst
    exact shp_not_db hdb

lemma db_table_default_ok_cases {st st2 : RawSource × String} {t : String}
    (h : db_table_default st t = .ok st2) :
    st2.2 = st.2 ∧ (st.2 = "db" → paramIn st2.1 "db_table" = .ok true) := by
  unfold db_table_default at h
  by_cases hdb : st.2 = "db"
  · rw [if_pos hdb] at h
    cases hm : paramIn st.1 "db_table" with
    | error e => rw [hm] at h; cases h
    | ok b =>
        rw [hm] at h
        cases b with
        | true =>
            dsimp only at h
            rw [(Except.ok.inj h).symm]
            exact ⟨rfl, fun _ => hm⟩
        | false =>
            dsimp only at h
            cases hso : setParamOn st.1 "db_table" t with
            | error e => rw [hso] at h; cases h
            | ok v =>
                rw [hso] at h
                dsimp only at h
                rw [(Except.ok.inj h).symm]
                refine ⟨rfl, fun _ => ?_⟩
                cases st1 : st.1 with
                | strSrc s => rw [st1] at hso; cases hso
                | pathSrc q => rw [st1] at hso; cases hso
                | dictSrc d =>
                    rw [st1] at hso
                    rw [(Except.ok.inj hso).symm]
                    simp [paramIn, dget_dset_same (Or.inr (Or.inr rfl))]
  · rw [if_neg hdb] at h
    rw [(Except.ok.inj h).symm]
    exact ⟨rfl, fun hc => absurd hc hdb⟩

lemma db_table_default_stable {st st2 st3 : RawSource × String} {t : String}
    {A : List (RawSource × String)}
    (hd : db_table_default st t = .ok st2)
    (hs : set_hierarchical_params st2 A = .ok st3) :
    db_table_default st3 t = .ok st3 := by
  obtain ⟨htag2, hpar⟩ := db_table_default_ok_cases hd
  obtain ⟨htag3, htbl⟩ := shp_tag_and_table hs
  unfold db_table_default
  by_cases hdb : st.2 = "db"
  · rw [if_pos (by rw [htag3, htag2]; exact hdb)]
    rw [htbl, hpar hdb]
  · rw [if_neg (by rw [htag3, htag2]; exact hdb)]

lemma set_default_param_self_single {l : RawSource} {p ty : String}
    {l' : RawSource} (h : set_default_param l p [(l, ty)] = .ok l') :
    l' = l := by
  unfold set_default_param at h
  cases hl : paramIn l p with
  | error e => rw [hl] at h; cases h
  | ok b =>
      rw [hl] at h
      cases b with
      | true => exact (Except.ok.inj h).symm
      | false =>
          simp only [set_default_param_scan] at h
          rw [hl] at h
          simp only [set_default_param_scan] at h
          exact (Except.ok.inj h).symm

lemma shp_self_single {st out : RawSource × String}
    (h : set_hierarchical_params st [st] = .ok out) : out = st := by
  by_cases hdb : st.2 = "db"
  · obtain ⟨v1, h1, v2, h2, rfl⟩ := shp_db_steps hdb h
    have hv1 : v1 = st.1 := set_default_param_self_single h1
    subst hv1
    have hv2 : v2 = st.1 := set_default_param_self_single h2
    subst hv2
    rfl
  · exact shp_eq_of_not_db hdb h

lemma get_data_source_schema_idem {msrc : Option (RawSource × String)}
    {sm : List (String × SchemaEntry)} {s : String}
    {r : RawSource × String} {m' : DataSourceMappings}
    (h : get_data_source_schema ⟨msrc, some sm⟩ sm s = .ok (r, m')) :
    ∃ sm', m' = ⟨msrc, some sm'⟩ ∧
      get_data_source_schema ⟨msrc, some sm'⟩ sm' s = .ok (r, m') := by
  unfold get_data_source_schema at h
  dsimp only at h
  cases hls : List.lookup s sm with
  | none =>
      rw [hls] at h
      cases hms : msrc with
      | none => rw [hms] at h; cases h
      | some st =>
          rw [hms] at h
          dsimp only at h
          cases hshp : set_hierarchical_params st [st] with
          | error e => rw [hshp] at h; cases h
          | ok st3 =>
              rw [hshp] at h
              dsimp only at h
              have hst : st3 = st := shp_self_single hshp
              subst hst
              have h2 := Except.ok.inj h
              have hr : r = st3 := (congrArg Prod.fst h2).symm
              have hm : m' = ⟨some st3, some sm⟩ := (congrArg Prod.snd h2).symm
              subst hr
              subst hm
              subst hms
              refine ⟨sm, rfl, ?_⟩
              unfold get_data_source_schema
              dsimp only
              rw [hls, hshp]
  | some e =>
      obtain ⟨esrc, etbl⟩ := e
      rw [hls] at h
      dsimp only at h
      cases hes : esrc with
      | none => rw [hes] at h; cases h
      | some st =>
          rw [hes] at h
          dsimp only at h
          cases hms : msrc with
          | none => rw [hms] at h; cases h
          | some r0 =>
              rw [hms] at h
              dsimp only at h
              cases hshp : set_hierarchical_params st [r0] with
              | error er => rw [hshp] at h; cases h
              | ok st3 =>
                  rw [hshp] at h
                  dsimp only at h
                  subst hms
                  subst hes
                  have h2 := Except.ok.inj h
                  have hr : r = st3 := (congrArg Prod.fst h2).symm
                  have hm : m' =
                      ⟨some r0, some (alUpdate s ⟨some st3, etbl⟩ sm)⟩ :=
                    (congrArg Prod.snd h2).symm
                  subst hr
                  subst hm
                  refine ⟨alUpdate s ⟨some r, etbl⟩ sm, rfl, ?_⟩
                  unfold get_data_source_schema
                  dsimp only
                  rw [lookup_alUpdate_self]
                  dsimp only
                  rw [shp_stable_same hshp]
                  dsimp only
                  rw [alUpdate_idem]

lemma get_data_source_table_idem {msrc : Option (RawSource × String)}
    {sm : List (String × SchemaEntry)} {s t : String}
    {r : RawSource × String} {m' : DataSourceMappings}
    (h : get_data_source_table ⟨msrc, some sm⟩ sm s t = .ok (r, m')) :
    ∃ sm', m' = ⟨msrc, some sm'⟩ ∧
      get_data_source_table ⟨msrc, some sm'⟩ sm' s t = .ok (r, m') := by
  unfold get_data_source_table at h
  dsimp only at h
  cases hls : List.lookup s sm with
  | none =>
      rw [hls] at h
      cases hms : msrc with
      | none => rw [hms] at h; cases h
      | some st =>
          rw [hms] at h
          dsimp only at h
          cases hdt : db_table_default st t with
          | error e => rw [hdt] at h; cases h
          | ok st2 => rw [hdt] at h; cases h
  | some e =>
      obtain ⟨esrc, etbl⟩ := e
      rw [hls] at h
      dsimp only at h
      cases htb : etbl with
      | none => rw [htb] at h; cases h
      | some tb =>
          rw [htb] at h
          dsimp only at h
          subst htb
          cases hlt : List.lookup t tb with
          | none =>
              rw [hlt] at h
              cases hes : esrc with
              | none => rw [hes] at h; cases h
              | some st =>
                  rw [hes] at h
                  dsimp only at h
                  subst hes
                  cases hdt : db_table_default st t with
                  | error er => rw [hdt] at h; cases h
                  | ok st2 =>
                      rw [hdt] at h
                      dsimp only at h
                      cases hms : msrc with
                      | none => rw [hms] at h; cases h
                      | some r0 =>
                          rw [hms] at h
                          dsimp only at h
                          subst hms
                          cases hshp : set_hierarchical_params st2 [st2, r0] with
                          | error er => rw [hshp] at h; cases h
                          | ok st3 =>
                              rw [hshp] at h
                              dsimp only at h
                              have h2 := Except.ok.inj h
                              have hr : r = st3 := (congrArg Prod.fst h2).symm
                              have hm : m' = ⟨some r0,
                                  some (alUpdate s ⟨some st3, some tb⟩ sm)⟩ :=
                                (congrArg Prod.snd h2).symm
                              subst hr
                              subst hm
                              refine ⟨alUpdate s ⟨some r, some tb⟩ sm, rfl, ?_⟩
                              unfold get_data_source_table
                              dsimp only
                              rw [lookup_alUpdate_self]
                              dsimp only
                              rw [hlt]
                              dsimp only
                              rw [db_table_default_stable hdt hshp]
                              dsimp only
                              rw [shp_stable_self_head hshp]
                              dsimp only
                              rw [alUpdate_idem]
          | some te =>
              rw [hlt] at h
              cases hte : te with
              | none => rw [hte] at h; cases h
              | some st =>
                  rw [hte] at h
                  dsimp only at h
                  subst hte
                  cases hdt : db_table_default st t with
                  | error er => rw [hdt] at h; cases h
                  | ok st2 =>
                      rw [hdt] at h
                      dsimp only at h
                      cases hes : esrc with
                      | none => rw [hes] at h; cases h
                      | some a1 =>
                          rw [hes] at h
                          dsimp only at h
                          subst hes
                          cases hms : msrc with
                          | none => rw [hms] at h; cases h
                          | some r0 =>
                              rw [hms] at h
                              dsimp only at h
                              subst hms
                              cases hshp : set_hierarchical_params st2 [a1, r0] with
                              | error er => rw [hshp] at h; cases h
                              | ok st3 =>
                                  rw [hshp] at h
                                  dsimp only at h
                                  have h2 := Except.ok.inj h
                                  have hr : r = st3 := (congrArg Prod.fst h2).symm
                                  have hm : m' = ⟨some r0,
                                      some (alUpdate s
                                        ⟨some a1, some (alUpdate t (some st3) tb)⟩
                                        sm)⟩ :=
                                    (congrArg Prod.snd h2).symm
                                  subst hr
                                  subst hm
                                  refine ⟨alUpdate s
                                    ⟨some a1, some (alUpdate t (some r) tb)⟩ sm,
                                    rfl, ?_⟩
                                  unfold get_data_source_table
                                  dsimp only
                                  rw [lookup_alUpdate_self]
                                  dsimp only
                                  rw [lookup_alUpdate_self]
                                  dsimp only
                                  rw [db_table_default_stable hdt hshp]
                                  dsimp only
                                  rw [shp_stable_same hshp]
                                  dsimp only
                                  rw [alUpdate_idem, alUpdate_idem]

/-! ### Claim theorems -/

/-- C9: resolution is idempotent.  For every registry partition and every
path, if a `_get_data_source` call succeeds with result `r` (leaving the
partition in state `m'`, since the call writes backfilled parameters into the
stored dicts in place), then an immediately repeated call with no intervening
mutation succeeds with the identical `(location, kind)` result `r` — and the
same post-state `m'`. -/
theorem resolve_idempotent (m : DataSourceMappings) (name : String)
    (r : RawSource × String) (m' : DataSourceMappings)
    (h : get_data_source m name = .ok (r, m')) :
    get_data_source m' name = .ok (r, m') := by
  obtain ⟨msrc, msch⟩ := m
  unfold get_data_source at h
  cases msch with
  | none =>
      dsimp only at h
      cases hms : msrc with
      | none => rw [hms] at h; cases h
      | some st =>
          rw [hms] at h
          dsimp only at h
          injection h with h2
          injection h2 with hr hm
          subst hr
          subst hm
          unfold get_data_source
          dsimp only
  | some sm =>
      dsimp only at h
      by_cases hname : name = ""
      · subst hname
        rw [if_pos rfl] at h
        cases hms : msrc with
        | none => rw [hms] at h; cases h
        | some st =>
            rw [hms] at h
            dsimp only at h
            injection h with h2
            injection h2 with hr hm
            subst hr
            subst hm
            unfold get_data_source
            dsimp only
            rw [if_pos rfl]
      · rw [if_neg hname] at h
        cases hsp : get_schema_and_table_name name with
        | error e => rw [hsp] at h; cases h
        | ok pr =>
            obtain ⟨s, topt⟩ := pr
            cases topt with
            | none =>
                rw [hsp] at h
                dsimp only at h
                obtain ⟨sm', rfl, h2⟩ := get_data_source_schema_idem h
                unfold get_data_source
                dsimp only
                rw [if_neg hname, hsp]
                exact h2
            | some t =>
                rw [hsp] at h
                dsimp only at h
                obtain ⟨sm', rfl, h2⟩ := get_data_source_table_idem h
                unfold get_data_source
                dsimp only
                rw [if_neg hname, hsp]
                exact h2

/-- Witness for C9: a concrete successful resolution, repeated via
`resolve_idempotent`. -/
theorem resolve_idempotent_witness :
    get_data_source
      { source := some (.pathSrc "/d", "file_or_dir"), schemas := none } "x" =
    Except.ok ((.pathSrc "/d", "file_or_dir"),
      { source := some (.pathSrc "/d", "file_or_dir"), schemas := none }) :=
  resolve_idempotent
    { source := some (.pathSrc "/d", "file_or_dir"), schemas := none } "x"
    (.pathSrc "/d", "file_or_dir")
    { source := some (.pathSrc "/d", "file_or_dir"), schemas := none }
    (by decide)

/-- C4: for every registry partition, resolving the empty path returns the
partition's default `'source'` pair unchanged (never touching the partition),
and when no default source is registered the lookup
`data_source_mappings['source']` fails — the `NoDefaultSourceError` of the
specification. -/
theorem root_resolution_default (m : DataSourceMappings) :
    get_data_source m "" =
      match m.source with
      | some st => Except.ok (st, m)
      | none => Except.error Err.noDefaultSource := by
  obtain ⟨msrc, msch⟩ := m
  unfold get_data_source
  cases msch <;> cases msrc <;> simp

/-- Counterexample to C5 as stated: a partition whose dict lacks the
`'schemas'` key (any freshly constructed action's partition is like this)
resolves the malformed path `"a.b.c"` — two `'.'` separators — to its default
source instead of failing with `InvalidPathError`, because
`_get_data_source`'s early return skips `_get_schema_and_table_name`. -/
theorem invalid_path_counterexample :
    get_data_source
      { source := some (.pathSrc "/data", "file_or_dir"), schemas := none }
      "a.b.c" =
    Except.ok ((.pathSrc "/data", "file_or_dir"),
      { source := some (.pathSrc "/data", "file_or_dir"), schemas := none }) := by
  decide

/-- C5 (amended): for every registry partition that carries a `'schemas'`
mapping, a non-root path with more than one `'.'` separator, or with an empty
table segment after the `'.'`, makes resolution fail with
`InvalidPathError`.  (Partitions without a `'schemas'` mapping return their
default source for any path, bypassing the path validation.) -/
theorem invalid_path_checked (m : DataSourceMappings)
    (sm : List (String × SchemaEntry)) (name : String)
    (hsm : m.schemas = some sm)
    (hbad : 2 < (splitOnChar '.' name).length ∨
      ((splitOnChar '.' name).length = 2 ∧
        (splitOnChar '.' name).getD 1 "" = "")) :
    get_data_source m name = Except.error Err.invalidPath := by
  have hne : name ≠ "" := by
    intro hn
    subst hn
    have he : splitOnChar '.' "" = [""] := by decide
    rw [he] at hbad
    simp at hbad
  have hsplit : get_schema_and_table_name name = .error .invalidPath := by
    rcases hbad with h1 | ⟨h1, h2⟩
    · simp [get_schema_and_table_name,
        show (splitOnChar '.' name).length ≠ 1 by omega,
        show (splitOnChar '.' name).length ≠ 2 by omega]
    · simp only [get_schema_and_table_name]
      rw [if_neg (show ¬(splitOnChar '.' name).length = 1 by omega),
        if_pos h1, if_pos h2]
  obtain ⟨msrc, msch⟩ := m
  simp only at hsm
  subst hsm
  unfold get_data_source
  dsimp only
  rw [if_neg hne, hsplit]

/-- Witness for C5 (amended) at the partition `{'schemas': {}}` and the path
`"a.b.c"`. -/
theorem invalid_path_checked_witness :
    get_data_source { source := none, schemas := some [] } "a.b.c" =
      Except.error Err.invalidPath :=
  invalid_path_checked { source := none, schemas := some [] } [] "a.b.c" rfl
    (Or.inl (by decide))

lemma get_data_source_type_dict (d : DbDict) :
    get_data_source_type (.dictSrc d) = .ok "db" ∨
      get_data_source_type (.dictSrc d) = .error .invalidLocation := by
  unfold get_data_source_type
  dsimp only
  split_ifs <;> simp

/-- C6: every `_set_data_source` call whose location is a database dict that
carries the `db_url` key but not the `db_schema` key fails with
`InvalidLocationError`, at any path granularity: a truthy `db_url` trips the
`db_url`-without-`db_schema` check of `_get_data_source_type`, and a falsy
one trips its PostgreSQL-scheme check — either way before anything is
stored. -/
theorem set_db_url_without_db_schema (m : DataSourceMappings) (name : String)
    (d : DbDict) (h1 : d.db_url.isSome = true) (h2 : d.db_schema = none) :
    set_data_source m name (.dictSrc d) = Except.error Err.invalidLocation := by
  obtain ⟨u, hu⟩ := Option.isSome_iff_exists.mp h1
  have htype : get_data_source_type (.dictSrc d) = .error .invalidLocation := by
    by_cases hue : u = ""
    · subst hue
      have hsch : urlparseScheme "" = "" := by decide
      simp [get_data_source_type, hu, h2, truthy, hsch]
    · simp [get_data_source_type, hu, h2, truthy, hue]
  unfold set_data_source
  rw [htype]

/-- Witness for C6: setting the root location `{'db_url': 'postgres://x'}`
(no `db_schema`) is rejected. -/
theorem set_db_url_without_db_schema_witness :
    set_data_source { source := none, schemas := none } ""
      (.dictSrc { db_url := some "postgres://x" }) =
      Except.error Err.invalidLocation :=
  set_db_url_without_db_schema { source := none, schemas := none } ""
    { db_url := some "postgres://x" } (by decide) (by decide)

/-- C7: every `_set_data_source` call at table granularity (a path that
splits into a schema and a non-empty table segment) whose database dict lacks
the `db_table` key fails with `InvalidLocationError` — either already in
`_get_data_source_type` (malformed dict) or in `_check_db_data_source`'s
table-granularity arm; nothing is stored. -/
theorem set_table_requires_db_table (m : DataSourceMappings)
    (name s t : String) (d : DbDict)
    (hsplit : get_schema_and_table_name name = .ok (s, some t))
    (htbl : d.db_table = none) :
    set_data_source m name (.dictSrc d) = Except.error Err.invalidLocation := by
  have hne : name ≠ "" := by
    intro hn
    subst hn
    have he : get_schema_and_table_name "" = .ok ("", none) := by decide
    rw [he] at hsplit
    simp at hsplit
  rcases get_data_source_type_dict d with hty | hty
  · have hchk : check_db_data_source name d = .error .invalidLocation := by
      unfold check_db_data_source
      rw [if_neg hne]
      dsimp only
      rw [hsplit]
      dsimp only
      rw [if_pos (by simp [truthy, htbl])]
    unfold set_data_source
    rw [hty]
    simp [hchk]
  · unfold set_data_source
    rw [hty]

/-- Witness for C7: setting `"s.t"` to `{'db_schema': 'x'}` (no `db_table`)
is rejected. -/
theorem set_table_requires_db_table_witness :
    set_data_source { source := none, schemas := none } "s.t"
      (.dictSrc { db_schema := some "x" }) =
      Except.error Err.invalidLocation :=
  set_table_requires_db_table { source := none, schemas := none } "s.t" "s" "t"
    { db_schema := some "x" } (by decide) (by decide)

/-- C10: every read of a path that splits into a schema and a non-empty table
segment raises `NotImplementedError`, for every registry partition and every
schema-attribute environment — the rejection happens before the data-source
registry is even consulted. -/
theorem read_table_not_implemented (hasAttr : String → Bool)
    (m : DataSourceMappings) (name s t : String)
    (hsplit : get_schema_and_table_name name = .ok (s, some t)) :
    read_data hasAttr m name = Except.error Err.notImplemented := by
  unfold read_data
  rw [hsplit]

/-- Witness for C10 at the path `"s.t"` on an empty partition. -/
theorem read_table_not_implemented_witness :
    read_data (fun _ => true) { source := none, schemas := none } "s.t" =
      Except.error Err.notImplemented :=
  read_table_not_implemented (fun _ => true)
    { source := none, schemas := none } "s.t" "s" "t" (by decide)

/-- C8: when a read or write dispatches to a `'db'`-tagged resolved dict that
still lacks the `db_url` or `db_schema` key, the operation fails with the
`ValueError` naming the first missing field — `db_url` is checked before
`db_schema` (`Err.missingParameter`) — and returns without producing the
database-collaborator call (`DispatchCall.dbRead`/`DispatchCall.dbWrite`). -/
theorem dispatch_missing_db_params (hasAttr : String → Bool)
    (m m' : DataSourceMappings) (name s : String) (d : DbDict)
    (hsplit : get_schema_and_table_name name = .ok (s, none))
    (hattr : hasAttr s = true)
    (hres : get_data_source m name = .ok ((.dictSrc d, "db"), m'))
    (hmiss : d.db_url = none ∨ d.db_schema = none) :
    read_data hasAttr m name =
      Except.error (Err.missingParameter
        (if d.db_url = none then "db_url" else "db_schema")) ∧
    write_data m name =
      Except.error (Err.missingParameter
        (if d.db_url = none then "db_url" else "db_schema")) := by
  constructor
  · unfold read_data
    rw [hsplit]
    dsimp only
    simp only [hattr, Bool.not_true, Bool.false_eq_true, if_false]
    rw [hres]
    dsimp only
    rcases hmiss with h | h
    · simp [h]
    · by_cases hu : d.db_url = none
      · simp [hu]
      · simp [hu, h]
  · unfold write_data
    rw [hres]
    dsimp only
    rcases hmiss with h | h
    · simp [h]
    · by_cases hu : d.db_url = none
      · simp [hu]
      · simp [hu, h]

/-- Witness for C8: a partition whose default source is
`{'db_schema': 'pub'}` (no `db_url`) makes both the read and the write of
`"cfg"` fail naming `db_url`. -/
theorem dispatch_missing_db_params_witness :
    read_data (fun _ => true)
      { source := some (.dictSrc { db_schema := some "pub" }, "db"),
        schemas := none } "cfg" =
      Except.error (Err.missingParameter "db_url") ∧
    write_data
      { source := some (.dictSrc { db_schema := some "pub" }, "db"),
        schemas := none } "cfg" =
      Except.error (Err.missingParameter "db_url") :=
  dispatch_missing_db_params (fun _ => true)
    { source := some (.dictSrc { db_schema := some "pub" }, "db"),
      schemas := none }
    { source := some (.dictSrc { db_schema := some "pub" }, "db"),
      schemas := none }
    "cfg" "cfg" { db_schema := some "pub" }
    (by decide) rfl (by decide) (Or.inl rfl)

/-- Evaluation of the code at C1's failing input: with a `'schemas'` mapping
present (registered for `"other"`) and a default source registered, resolving
`"s.t"` for the unregistered schema `"s"` crashes with `KeyError('s')` —
the ancestor list `[schemas[schema]['source'], mappings['source']]` is built
eagerly — instead of returning the partition default as the claim (and the
spec's fallback cascade) requires. -/
theorem unregistered_schema_table_resolution_raises :
    get_data_source
      { source := some (.pathSrc "/data", "file_or_dir"),
        schemas := some [("other", { source := some (.pathSrc "/o", "file_or_dir") })] }
      "s.t" = Except.error (Err.keyError "s") := by
  decide

/-- Evaluation of the code at C3's failing input: on a partition reachable
through the three public setter calls shown in the first three conjuncts
(root database default, schema-level `{'db_schema': 'C'}`, table-level
`{'db_table': 'x'}`), a successful resolve of `"s.t"` writes the backfilled
`db_url`/`db_schema` into the stored table dict in place, so the registry
after the call differs from the registry before it — resolution does mutate
the stored registry, contradicting the claim. -/
theorem resolution_mutates_registry :
    set_data_source { source := none, schemas := none } ""
        (.dictSrc { db_url := some "postgres://x", db_schema := some "B" }) =
      Except.ok c3_state_a ∧
    set_data_source c3_state_a "s" (.dictSrc { db_schema := some "C" }) =
      Except.ok c3_state_b ∧
    set_data_source c3_state_b "s.t" (.dictSrc { db_table := some "x" }) =
      Except.ok c3_state_c ∧
    get_data_source c3_state_c "s.t" =
      Except.ok ((.dictSrc
        { db_url := some "postgres://x", db_schema := some "C",
          db_table := some "x" }, "db"), c3_state_after) ∧
    c3_state_after ≠ c3_state_c := by
  refine ⟨by decide, by decide, by decide, by decide, by decide⟩

/-- Counterexample to C2's concrete instance as stated: with root
`{'db_url': 'A', 'db_schema': 'B'}` and the schema entry for `"s"` holding
only the source `{'db_schema': 'C'}` — no `'tables'` mapping, which is
exactly what a schema-level setter call leaves behind — resolving the table
path `"s.t"` crashes with `KeyError('tables')` instead of yielding
`{'db_url': 'A', 'db_schema': 'C'}`. -/
theorem field_inheritance_counterexample :
    get_data_source
      { source := some (.dictSrc { db_url := some "A", db_schema := some "B" }, "db"),
        schemas := some
          [("s", { source := some (.dictSrc { db_schema := some "C" }, "db") })] }
      "s.t" = Except.error (Err.keyError "tables") := by
  decide

lemma opt_or_self_left {α : Type} (x y : Option α) : x.or (x.or y) = x.or y := by
  cases x <;> rfl

lemma db_table_default_dict (src : DbDict) (t : String) :
    db_table_default (.dictSrc src, "db") t =
      .ok (.dictSrc { src with db_table := src.db_table.or (some t) }, "db") := by
  obtain ⟨su, ssc, stb⟩ := src
  unfold db_table_default
  rw [if_pos rfl]
  cases stb with
  | some v => simp [paramIn, dget]
  | none => simp [paramIn, dget, setParamOn, dset]

lemma shp_dict_two (du dsc dtb au asc atb ru rsc rtb : Option String)
    (ta tr : String) :
    set_hierarchical_params (.dictSrc ⟨du, dsc, dtb⟩, "db")
      [(.dictSrc ⟨au, asc, atb⟩, ta), (.dictSrc ⟨ru, rsc, rtb⟩, tr)] =
      .ok (.dictSrc ⟨du.or (au.or ru), dsc.or (asc.or rsc), dtb⟩, "db") := by
  cases du <;> cases au <;> cases ru <;> cases dsc <;> cases asc <;> cases rsc <;>
    simp [set_hierarchical_params, set_default_param, set_default_param_scan,
      paramIn, getParamVal, setParamOn, dget, dset, Option.or]

/-- C2 (amended): field-level inheritance at table granularity, provided the
schema entry also carries a `'tables'` mapping (without the requested table)
— the shape the code requires to reach the fallback.  The resolved location
is the schema's database source; `db_url` and `db_schema` are each filled
independently with the first present value among the location itself, the
schema source (the same dict) and the partition default, and `db_table` is
set to the requested table's name when absent.  In particular root
`{'db_url': A, 'db_schema': B}` with schema source `{'db_schema': C}` yields
`{'db_url': A, 'db_schema': C, 'db_table': t}`; the filled dict is also
written back into the schema's registry slot. -/
theorem table_resolution_field_inheritance
    (name s t : String) (root src : DbDict)
    (sm : List (String × SchemaEntry))
    (tb : List (String × Option (RawSource × String)))
    (hsplit : get_schema_and_table_name name = .ok (s, some t))
    (hlk : List.lookup s sm = some ⟨some (.dictSrc src, "db"), some tb⟩)
    (hnt : List.lookup t tb = none) :
    get_data_source ⟨some (.dictSrc root, "db"), some sm⟩ name =
      Except.ok ((.dictSrc ⟨src.db_url.or root.db_url,
          src.db_schema.or root.db_schema, src.db_table.or (some t)⟩, "db"),
        ⟨some (.dictSrc root, "db"),
          some (alUpdate s
            ⟨some (.dictSrc ⟨src.db_url.or root.db_url,
              src.db_schema.or root.db_schema, src.db_table.or (some t)⟩, "db"),
              some tb⟩ sm)⟩) := by
  obtain ⟨ru, rsc, rtb⟩ := root
  obtain ⟨su, ssc, stb⟩ := src
  have hne : name ≠ "" := by
    intro hn
    subst hn
    have he : get_schema_and_table_name "" = .ok ("", none) := by decide
    rw [he] at hsplit
    simp at hsplit
  unfold get_data_source
  dsimp only
  rw [if_neg hne, hsplit]
  dsimp only
  unfold get_data_source_table
  rw [hlk]
  dsimp only
  rw [hnt]
  dsimp only
  rw [db_table_default_dict]
  dsimp only
  rw [shp_dict_two]
  dsimp only
  rw [opt_or_self_left, opt_or_self_left]

/-- Witness for C2 (amended): the spec's own example, with an (empty)
`'tables'` mapping present on the schema entry. -/
theorem table_resolution_field_inheritance_witness :
    get_data_source
      { source := some (.dictSrc { db_url := some "A", db_schema := some "B" }, "db"),
        schemas := some
          [("s", { source := some (.dictSrc { db_schema := some "C" }, "db"),
                   tables := some [] })] }
      "s.t" =
      Except.ok ((.dictSrc
          { db_url := some "A", db_schema := some "C", db_table := some "t" }, "db"),
        { source := some (.dictSrc { db_url := some "A", db_schema := some "B" }, "db"),
          schemas := some
            [("s",
              { source :=
                  some (.dictSrc { db_url := some "A", db_schema := some "C",
                                   db_table := some "t" }, "db"),
                tables := some [] })] }) :=
  table_resolution_field_inheritance "s.t" "s" "t"
    { db_url := some "A", db_schema := some "B" } { db_schema := some "C" }
    [("s", { source := some (.dictSrc { db_schema := some "C" }, "db"),
             tables := some [] })]
    [] (by decide) (by decide) (by decide)
